import Mathlib

/-!
Shallow embedding of the libzulip request/response marshalling core:
the response error protocol (error.rs), the message endpoint operations
(send, delete, edit, emoji reactions, upload) from src/messages, the
server settings cache (organizations.rs), and the request construction
with authentication (lib.rs, config.rs). JSON decoding follows the
semantics of serde with derived deserializers, where a field marked
serde(flatten) of type Option of ResponseError deserializes the inner
struct from the remaining fields of the same object and maps any
failure into none.
-/

namespace Zulip

/-- JSON values, as handled by serde_json. Numbers are modelled as
integers, which covers every field of the decoded response types
(all are u64, u8 or strings). -/
inductive Json where
  | null
  | bool (b : Bool)
  | num (n : Int)
  | str (s : String)
  | arr (elems : List Json)
  | obj (fields : List (String × Json))

/-- Field lookup in a JSON object; none for non-objects and absent keys. -/
def Json.getField : Json → String → Option Json
  | .obj fields, name => fields.lookup name
  | _, _ => none

/-- Decode a JSON value as a string, as serde does for a String field. -/
def decodeString : Json → Except String String
  | .str s => .ok s
  | _ => .error "invalid type: expected a string"

/-- Decode a JSON value as a list of strings (a serde Vec of String). -/
def decodeStringList : Json → Except String (List String)
  | .arr xs => xs.mapM decodeString
  | _ => .error "invalid type: expected a sequence"

/-- Decode a JSON value as a u64, with the range check serde_json performs. -/
def decodeU64 : Json → Except String Nat
  | .num n => if 0 ≤ n ∧ n < (2 : Int) ^ 64 then .ok n.toNat else .error "invalid value: out of range for u64"
  | _ => .error "invalid type: expected u64"

/-- Decode a JSON value as a u8, with the range check serde_json performs. -/
def decodeU8 : Json → Except String Nat
  | .num n => if 0 ≤ n ∧ n < 256 then .ok n.toNat else .error "invalid value: out of range for u8"
  | _ => .error "invalid type: expected u8"

/-- A required struct field: absent means a deserialization error. -/
def decodeReqField (j : Json) (name : String) (d : Json → Except String α) : Except String α :=
  match j.getField name with
  | none => .error ("missing field " ++ name)
  | some v => d v

/-- An optional struct field (an Option in the Rust struct): absent or
null yields none, a present value must decode. -/
def decodeOptField (j : Json) (name : String) (d : Json → Except String α) : Except String (Option α) :=
  match j.getField name with
  | none => .ok none
  | some .null => .ok none
  | some v => (d v).map some

/-- The embedded error object of error.rs: fields code and msg are
required, ignored_parameters_unsupported is optional. -/
structure ResponseError where
  code : String
  msg : String
  ignored_parameters_unsupported : Option (List String)
deriving Repr, DecidableEq

/-- Derived deserializer for ResponseError, reading its fields from the
surrounding object (unknown fields are ignored). -/
def ResponseError.decode (j : Json) : Except String ResponseError :=
  match decodeReqField j "code" decodeString with
  | .error e => .error e
  | .ok code =>
    match decodeReqField j "msg" decodeString with
    | .error e => .error e
    | .ok msg =>
      match decodeOptField j "ignored_parameters_unsupported" decodeStringList with
      | .error e => .error e
      | .ok ignored => .ok { code := code, msg := msg, ignored_parameters_unsupported := ignored }

/-- The serde(flatten) Option of ResponseError used by every response
type: deserialize ResponseError from the co-located fields of the body
and turn any failure into none. -/
def decodeFlattenedError (j : Json) : Option ResponseError :=
  (ResponseError.decode j).toOption

/-- The Display rendering of ResponseError in error.rs. -/
def ResponseError.render (e : ResponseError) : String :=
  "err(" ++ e.code ++ "): " ++ e.msg

/-- ResponseError.warn_ignored of error.rs, modelled as the list of
warning events it emits: one event carrying the ignored parameter list
when it is present, none otherwise. -/
def ResponseError.warn_ignored (e : ResponseError) : List (List String) :=
  match e.ignored_parameters_unsupported with
  | some ignored => [ignored]
  | none => []

/-- Errors from file upload and download (error.rs FileError). -/
inductive FileError where
  | FileNotFound (path : String)
  | FileTooLarge (max given : Nat)
  | DownloadFailTempFile
  | FileNameNotFound (path : String)
  | AttachSerializeFailed (path : String)
deriving Repr, DecidableEq

/-- Errors from messaging tasks (error.rs MessageError). Note the enum
has no variant for message edits. -/
inductive MessageError where
  | SendFailed (content error : String)
  | DeletionFailed (id : Nat) (error : String)
  | AddEmojiFailed (msg_id : Nat) (emoji_name error : String)
  | RemoveEmojiFailed (msg_id : Nat) (emoji_name error : String)
  | FileUploadFailed (path error : String)
  | SingleMessageFetchFailed (msg_id : Nat) (error : String)
  | RenderMessageFailed (content error : String)
deriving Repr, DecidableEq

/-- The crate error type (error.rs ZulipError). Errors of the wrapped
libraries are carried as their rendered messages. -/
inductive ZulipError where
  | ReqwestError (err : String)
  | SerdeJsonError (err : String)
  | FileError (err : FileError)
  | UrlParseError (err : String)
  | MessageError (err : MessageError)
deriving Repr, DecidableEq

/-- A lowercase hexadecimal digit (serde_json escape table). -/
def hexDigitLower (n : Nat) : Char :=
  if n < 10 then Char.ofNat (48 + n) else Char.ofNat (87 + n)

/-- An uppercase hexadecimal digit (urlencoding escape table). -/
def hexDigitUpper (n : Nat) : Char :=
  if n < 10 then Char.ofNat (48 + n) else Char.ofNat (55 + n)

/-- serde_json string escaping: quote, backslash, the short control
escapes, and lowercase hex for the other control characters. -/
def jsonEscapeChar (c : Char) : String :=
  if c = '"' then "\\\""
  else if c = '\\' then "\\\\"
  else if c = Char.ofNat 8 then "\\b"
  else if c = Char.ofNat 9 then "\\t"
  else if c = Char.ofNat 10 then "\\n"
  else if c = Char.ofNat 12 then "\\f"
  else if c = Char.ofNat 13 then "\\r"
  else if c.toNat < 32 then
    "\\u00" ++ String.mk [hexDigitLower (c.toNat / 16), hexDigitLower (c.toNat % 16)]
  else String.mk [c]

/-- serde_json encoding of a string value. -/
def jsonEncodeString (s : String) : String :=
  "\"" ++ String.join (s.data.map jsonEscapeChar) ++ "\""

/-- serde_json encoding of a Vec of u64, as produced by to_string. -/
def jsonEncodeU64List (xs : List Nat) : String :=
  "[" ++ String.intercalate "," (xs.map toString) ++ "]"

/-- serde_json encoding of a Vec of String, as produced by to_string. -/
def jsonEncodeStringList (xs : List String) : String :=
  "[" ++ String.intercalate "," (xs.map jsonEncodeString) ++ "]"

/-- The channel a message is sent (send_message.rs). -/
inductive ChannelMessageTarget where
  | Name (s : String)
  | Id (number : Nat)
deriving Repr, DecidableEq

/-- The person or persons a direct message is sent (send_message.rs). -/
inductive DirectMessageTarget where
  | Ids (vec : List Nat)
  | Emails (vec : List String)
deriving Repr, DecidableEq

/-- The message being sent (send_message.rs Message). -/
inductive Message where
  | Direct (to' : DirectMessageTarget) (content queue_id local_id : String)
  | Stream (content topic queue_id local_id : String)
  | Channel (to' : ChannelMessageTarget) (content topic queue_id local_id : String)
deriving Repr, DecidableEq

/-- Message.typ of send_message.rs. -/
def Message.typ : Message → String
  | .Direct .. => "direct"
  | .Stream .. => "stream"
  | .Channel .. => "channel"

/-- Message.to of send_message.rs, named to' here since to is a
reserved token: channel targets render as name or
number, direct targets as the serde_json encoding of the id or email
vector (to_string on these vectors always succeeds). -/
def Message.to' : Message → Option String
  | .Channel to' .. =>
    match to' with
    | .Name s => some s
    | .Id number => some (toString number)
  | .Direct to' .. =>
    match to' with
    | .Ids vec => some (jsonEncodeU64List vec)
    | .Emails vec => some (jsonEncodeStringList vec)
  | .Stream .. => none

/-- Message.content of send_message.rs. -/
def Message.content : Message → String
  | .Direct _ content _ _ => content
  | .Stream content _ _ _ => content
  | .Channel _ content _ _ _ => content

/-- Message.topic of send_message.rs. -/
def Message.topic : Message → Option String
  | .Direct .. => none
  | .Stream _ topic _ _ => some topic
  | .Channel _ _ topic _ _ => some topic

/-- Message.queue_id of send_message.rs. -/
def Message.queue_id : Message → String
  | .Direct _ _ queue_id _ => queue_id
  | .Stream _ _ queue_id _ => queue_id
  | .Channel _ _ _ queue_id _ => queue_id

/-- Message.local_id of send_message.rs. -/
def Message.local_id : Message → String
  | .Direct _ _ _ local_id => local_id
  | .Stream _ _ _ local_id => local_id
  | .Channel _ _ _ _ local_id => local_id

/-- Message.make_parameters of send_message.rs: the four required
fields, then the to and topic entries only when the accessors yield a value. The
HashMap is modelled as the association list of its entries. -/
def Message.make_parameters (m : Message) : List (String × String) :=
  [("local_id", m.local_id), ("queue_id", m.queue_id),
   ("content", m.content), ("type", m.typ)]
  ++ (match m.to' with | some to' => [("to", to')] | none => [])
  ++ (match m.topic with | some topic => [("topic", topic)] | none => [])

/-- The decoded response of send_message (send_message.rs MessageResponse). -/
structure MessageResponse where
  id : Nat
  automatic_new_visibility_policy : Option Nat
  error : Option ResponseError
  stream : Option String
deriving Repr, DecidableEq

/-- Derived deserializer of MessageResponse: id is a required u64, the
two optional fields tolerate absence or null, and the flattened error
is decoded from the same object. -/
def MessageResponse.decode (j : Json) : Except String MessageResponse :=
  match decodeReqField j "id" decodeU64 with
  | .error e => .error e
  | .ok id =>
    match decodeOptField j "automatic_new_visibility_policy" decodeU8 with
    | .error e => .error e
    | .ok anvp =>
      match decodeOptField j "stream" decodeString with
      | .error e => .error e
      | .ok stream =>
        .ok { id := id, automatic_new_visibility_policy := anvp,
              error := decodeFlattenedError j, stream := stream }

/-- Client.send_message from the decoded body onward: a body that fails
to decode surfaces as the decode error of the reqwest json call; a
decoded body with an embedded error returns SendFailed carrying the
message content and the rendered error; otherwise the response is the
success value. -/
def send_message (msg : Message) (body : Json) : Except ZulipError MessageResponse :=
  match MessageResponse.decode body with
  | .error e => .error (.ReqwestError ("error decoding response body: " ++ e))
  | .ok resp =>
    match resp.error with
    | some error => .error (.MessageError (.SendFailed msg.content error.render))
    | none => .ok resp

/-- The decoded response of delete_message (delete_message.rs): only the
flattened error object. -/
structure DeletedMessageResponse where
  error : Option ResponseError
deriving Repr, DecidableEq

/-- Derived deserializer of DeletedMessageResponse: any JSON object
decodes, the flattened error is taken from its fields. -/
def DeletedMessageResponse.decode : Json → Except String DeletedMessageResponse
  | .obj fields => .ok { error := decodeFlattenedError (.obj fields) }
  | _ => .error "invalid type: expected a map"

/-- Client.delete_message from the decoded body onward, paired with the
warning events it emits: on an embedded error it runs warn_ignored and
returns DeletionFailed with the message id. -/
def delete_message (msg_id : Nat) (body : Json) :
    Except ZulipError Unit × List (List String) :=
  match DeletedMessageResponse.decode body with
  | .error e => (.error (.ReqwestError ("error decoding response body: " ++ e)), [])
  | .ok resp =>
    match resp.error with
    | some error =>
      (.error (.MessageError (.DeletionFailed msg_id error.render)), error.warn_ignored)
    | none => (.ok (), [])

/-- The UTF-8 encoding of one character, as a list of byte values. -/
def utf8Bytes (c : Char) : List Nat :=
  let n := c.toNat
  if n < 128 then [n]
  else if n < 2048 then [192 + n / 64, 128 + n % 64]
  else if n < 65536 then [224 + n / 4096, 128 + n / 64 % 64, 128 + n % 64]
  else [240 + n / 262144, 128 + n / 4096 % 64, 128 + n / 64 % 64, 128 + n % 64]

/-- The bytes the urlencoding crate passes through unescaped:
ASCII alphanumerics and the marks dash, dot, underscore, tilde. -/
def isUrlSafeByte (b : Nat) : Bool :=
  (65 ≤ b && b ≤ 90) || (97 ≤ b && b ≤ 122) || (48 ≤ b && b ≤ 57)
  || b == 45 || b == 46 || b == 95 || b == 126

/-- urlencoding.encode: percent-encode every unsafe UTF-8 byte with
uppercase hex digits. -/
def urlencode (s : String) : String :=
  String.join (s.data.map (fun c =>
    String.join ((utf8Bytes c).map (fun b =>
      if isUrlSafeByte b then String.mk [Char.ofNat b]
      else String.mk ['%', hexDigitUpper (b / 16), hexDigitUpper (b % 16)]))))

/-- The type of emoji (emoji_reaction.rs ReactionType). -/
inductive ReactionType where
  | UnicodeEmoji
  | RealmEmoji
  | ZulipExtraEmoji
deriving Repr, DecidableEq

/-- The Display rendering of ReactionType in emoji_reaction.rs. -/
def ReactionType.render : ReactionType → String
  | .UnicodeEmoji => "unicode_emoji"
  | .RealmEmoji => "realm_emoji"
  | .ZulipExtraEmoji => "zulip_extra_emoji"

/-- The emoji selector (emoji_reaction.rs EmojiSelector). -/
structure EmojiSelector where
  emoji_name : String
  emoji_code : Option String
  reaction_type : Option ReactionType
deriving Repr, DecidableEq

/-- EmojiSelector.make_parameters of emoji_reaction.rs: the urlencoded
name always, then the optional code and reaction type only when set. -/
def EmojiSelector.make_parameters (sel : EmojiSelector) : List (String × String) :=
  [("emoji_name", urlencode sel.emoji_name)]
  ++ (match sel.emoji_code with | some emoji_code => [("emoji_code", emoji_code)] | none => [])
  ++ (match sel.reaction_type with
      | some reaction_type => [("reaction_type", reaction_type.render)]
      | none => [])

/-- The decoded response of the reaction endpoints (emoji_reaction.rs):
only the flattened error object. -/
structure EmojiReactionResponse where
  error : Option ResponseError
deriving Repr, DecidableEq

/-- Derived deserializer of EmojiReactionResponse. -/
def EmojiReactionResponse.decode : Json → Except String EmojiReactionResponse
  | .obj fields => .ok { error := decodeFlattenedError (.obj fields) }
  | _ => .error "invalid type: expected a map"

/-- Client.add_emoji_reaction from the decoded body onward, paired with
the warning events it emits. On an embedded error it returns
AddEmojiFailed and, unlike its siblings, never calls warn_ignored. -/
def add_emoji_reaction (msg_id : Nat) (selector : EmojiSelector) (body : Json) :
    Except ZulipError Unit × List (List String) :=
  match EmojiReactionResponse.decode body with
  | .error e => (.error (.ReqwestError ("error decoding response body: " ++ e)), [])
  | .ok resp =>
    match resp.error with
    | some error =>
      (.error (.MessageError (.AddEmojiFailed msg_id selector.emoji_name error.render)), [])
    | none => (.ok (), [])

/-- Client.remove_emoji_reaction from the decoded body onward, paired
with the warning events it emits: warn_ignored runs on the failure path. -/
def remove_emoji_reaction (msg_id : Nat) (selector : EmojiSelector) (body : Json) :
    Except ZulipError Unit × List (List String) :=
  match EmojiReactionResponse.decode body with
  | .error e => (.error (.ReqwestError ("error decoding response body: " ++ e)), [])
  | .ok resp =>
    match resp.error with
    | some error =>
      (.error (.MessageError (.RemoveEmojiFailed msg_id selector.emoji_name error.render)),
       error.warn_ignored)
    | none => (.ok (), [])

/-- The edit request (edit_message.rs EditedMessage). -/
structure EditedMessage where
  message_id : Nat
  topic : Option String
  send_notification_to_old_thread : Option Bool
  send_notification_to_new_thread : Option Bool
  content : Option String
  stream_id : Option Nat
deriving Repr, DecidableEq

/-- One message referencing a detached upload (edit_message.rs). -/
structure BasicMessageRepresentation where
  date_sent : Nat
  id : Nat
deriving Repr, DecidableEq

/-- An upload orphaned by an edit (edit_message.rs DetachedUpload). -/
structure DetachedUpload where
  id : Nat
  name : String
  path_id : String
  size : Nat
  create_time : Nat
  messages : List BasicMessageRepresentation
deriving Repr, DecidableEq

/-- The decoded response of edit_message (edit_message.rs): only the
detached uploads. It has no flattened error field. -/
structure EditedMessageResponse where
  detached_uploads : List DetachedUpload
deriving Repr, DecidableEq

/-- Derived deserializer of BasicMessageRepresentation. -/
def BasicMessageRepresentation.decode (j : Json) : Except String BasicMessageRepresentation :=
  match decodeReqField j "date_sent" decodeU64 with
  | .error e => .error e
  | .ok date_sent =>
    match decodeReqField j "id" decodeU64 with
    | .error e => .error e
    | .ok id => .ok { date_sent := date_sent, id := id }

/-- Derived deserializer of DetachedUpload. -/
def DetachedUpload.decode (j : Json) : Except String DetachedUpload :=
  match decodeReqField j "id" decodeU64 with
  | .error e => .error e
  | .ok id =>
    match decodeReqField j "name" decodeString with
    | .error e => .error e
    | .ok name =>
      match decodeReqField j "path_id" decodeString with
      | .error e => .error e
      | .ok path_id =>
        match decodeReqField j "size" decodeU64 with
        | .error e => .error e
        | .ok size =>
          match decodeReqField j "create_time" decodeU64 with
          | .error e => .error e
          | .ok create_time =>
            match decodeReqField j "messages"
                (fun v => match v with
                  | .arr xs => xs.mapM BasicMessageRepresentation.decode
                  | _ => .error "invalid type: expected a sequence") with
            | .error e => .error e
            | .ok messages =>
              .ok { id := id, name := name, path_id := path_id, size := size,
                    create_time := create_time, messages := messages }

/-- Derived deserializer of EditedMessageResponse. -/
def EditedMessageResponse.decode (j : Json) : Except String EditedMessageResponse :=
  match decodeReqField j "detached_uploads"
      (fun v => match v with
        | .arr xs => xs.mapM DetachedUpload.decode
        | _ => .error "invalid type: expected a sequence") with
  | .error e => .error e
  | .ok detached_uploads => .ok { detached_uploads := detached_uploads }

/-- The parameter encoding of edit_message (edit_message.rs): the Some
fields of the request, with propagate_mode always forced to change_one. -/
def edit_message_parameters (em : EditedMessage) : List (String × String) :=
  (match em.topic with | some topic => [("topic", topic)] | none => [])
  ++ [("propagate_mode", "change_one")]
  ++ (match em.send_notification_to_old_thread with
      | some b => [("send_notification_to_old_thread", if b then "true" else "false")]
      | none => [])
  ++ (match em.send_notification_to_new_thread with
      | some b => [("send_notification_to_new_thread", if b then "true" else "false")]
      | none => [])
  ++ (match em.content with | some content => [("content", content)] | none => [])
  ++ (match em.stream_id with | some sid => [("stream_id", toString sid)] | none => [])

/-- Client.edit_message from the response body onward: the body is
parsed with serde_json from_str and returned as the success value.
No embedded error check is applied. -/
def edit_message (_em : EditedMessage) (body : Json) : Except ZulipError EditedMessageResponse :=
  match EditedMessageResponse.decode body with
  | .error e => .error (.SerdeJsonError e)
  | .ok resp => .ok resp

/-- The server settings cache (organizations.rs ServerSettingsCache),
parameterized by the settings payload type, which its logic never
inspects. Instants and durations are modelled as Nat; the refresh
interval field models the current value behind the RwLock, read afresh
on every get. -/
structure ServerSettingsCache (α : Type) where
  refresh_interval : Nat
  last_updated : Nat
  settings : α
deriving Repr, DecidableEq

/-- ServerSettingsCache.new of organizations.rs: the constructor
performs the initial fetch and stamps last_updated with the current
time. The network fetch is modelled by its delivered value. -/
def ServerSettingsCache.new (now : Nat) (refresh_interval : Nat) (fetched : α) :
    ServerSettingsCache α :=
  { refresh_interval := refresh_interval, last_updated := now, settings := fetched }

/-- ServerSettingsCache.update of organizations.rs: refetch the settings
and replace them wholesale. Exactly as in the source, last_updated is
not written. -/
def ServerSettingsCache.update (c : ServerSettingsCache α) (fetched : α) :
    ServerSettingsCache α :=
  { c with settings := fetched }

/-- ServerSettingsCache.get of organizations.rs: refresh only when the
time since last_updated strictly exceeds the refresh interval, then
return the held settings. The result carries the new cache state, the
number of fetches performed by this call, and the returned settings.
Instant.duration_since saturates at zero, like Nat subtraction. -/
def ServerSettingsCache.get (c : ServerSettingsCache α) (now : Nat) (fetched : α) :
    ServerSettingsCache α × Nat × α :=
  if c.refresh_interval < now - c.last_updated then
    let c2 := c.update fetched
    (c2, 1, c2.settings)
  else
    (c, 0, c.settings)

/-- ServerSettingsCache.get_without_cache of organizations.rs: always
refresh, then return the held settings. -/
def ServerSettingsCache.get_without_cache (c : ServerSettingsCache α) (fetched : α) :
    ServerSettingsCache α × Nat × α :=
  let c2 := c.update fetched
  (c2, 1, c2.settings)

/-- The facts about a local path that upload_file consults: its display
string, its derivable file name, whether a file is present on disk, and
whether the existence probe itself fails (permission trouble and the
like). -/
structure UploadPath where
  display : String
  file_name : Option String
  exists_on_disk : Bool
  probe_fails : Bool
deriving Repr, DecidableEq

/-- tokio.fs.try_exists: an error only when the probe itself fails; a
missing file is the ok false outcome, not an error. -/
def UploadPath.try_exists (p : UploadPath) : Except Unit Bool :=
  if p.probe_fails then .error () else .ok p.exists_on_disk

/-- Outcome of the local stage of upload_file: either an error returned
before any network call, or dispatch of the multipart request under the
derived file name. -/
inductive UploadFlow where
  | failedBeforeNetwork (e : ZulipError)
  | dispatched (file_name : String)
deriving Repr, DecidableEq

/-- Client.upload_file up to the network call (upload_file.rs): derive
the file name (FileNameNotFound when impossible), then return
FileNotFound exactly when try_exists is an error, and otherwise proceed
to the network upload. -/
def upload_file_local_stage (p : UploadPath) : UploadFlow :=
  match p.file_name with
  | none => .failedBeforeNetwork (.FileError (.FileNameNotFound p.display))
  | some name =>
    match p.try_exists with
    | .error _ => .failedBeforeNetwork (.FileError (.FileNotFound p.display))
    | .ok _ => .dispatched name

/-- The API key holder (config.rs ApiKey). -/
structure ApiKey where
  key : String
deriving Repr, DecidableEq

/-- ApiKey.get of config.rs. -/
def ApiKey.get (k : ApiKey) : String := k.key

/-- The client identity string holder (config.rs UserAgent). -/
structure UserAgent where
  s : String
deriving Repr, DecidableEq

/-- UserAgent.new of config.rs: the caller product name and version,
then the package name and version of the library itself, rendered once.
The build metadata constants are passed explicitly. -/
def UserAgent.new (pkg_name pkg_version client_name version : String) : UserAgent :=
  { s := client_name ++ "/" ++ version ++ ", " ++ pkg_name ++ "/" ++ pkg_version ++ " (Rust)" }

/-- UserAgent.get of config.rs. -/
def UserAgent.get (u : UserAgent) : String := u.s

/-- The message module configuration (config.rs MessagesConfig). -/
structure MessagesConfig where
  read_by_sender : Bool
deriving Repr, DecidableEq

/-- The client configuration (config.rs ClientConfig). The server
address and the optional cache interval live elsewhere in the model. -/
structure ClientConfig where
  user_agent : UserAgent
  email : String
  api_key : ApiKey
  server_address : String
  messages : MessagesConfig
deriving Repr, DecidableEq

/-- The HTTP method of a request. -/
inductive HttpMethod where
  | GET
  | POST
  | PATCH
  | DELETE
deriving Repr, DecidableEq

/-- A header attached to an outgoing request: either the Basic
authentication header reqwest builds from a username and password, or a
client identity header carrying a User-Agent value. -/
inductive Header where
  | Authorization (username password : String)
  | UserAgentHeader (value : String)
deriving Repr, DecidableEq

/-- Whether a header is a client identity header. -/
def Header.is_user_agent : Header → Bool
  | .UserAgentHeader _ => true
  | _ => false

/-- An outgoing request as assembled before dispatch. -/
structure RequestBuilder where
  method : HttpMethod
  url : String
  headers : List Header
  form : List (String × String)
deriving Repr, DecidableEq

/-- The client (lib.rs Client): its configuration and the API URL
joined once at construction. -/
structure Client where
  conf : ClientConfig
  api_url : String
deriving Repr, DecidableEq

/-- Client.auth of lib.rs: attach Basic authentication built from the
configured email and API key. This is the only header the client ever
attaches. -/
def Client.auth (c : Client) (rb : RequestBuilder) : RequestBuilder :=
  { rb with headers := rb.headers ++ [.Authorization c.conf.email c.conf.api_key.get] }

/-- The request send_message assembles before dispatch. -/
def Client.send_message_request (c : Client) (msg : Message) : RequestBuilder :=
  c.auth { method := .POST, url := c.api_url ++ "messages",
           headers := [], form := msg.make_parameters }

/-- The request delete_message assembles before dispatch. -/
def Client.delete_message_request (c : Client) (msg_id : Nat) : RequestBuilder :=
  c.auth { method := .DELETE, url := c.api_url ++ "messages/" ++ toString msg_id,
           headers := [], form := [] }

/-- The request add_emoji_reaction assembles before dispatch. -/
def Client.add_emoji_reaction_request (c : Client) (msg_id : Nat) (selector : EmojiSelector) :
    RequestBuilder :=
  c.auth { method := .POST,
           url := c.api_url ++ "messages/" ++ toString msg_id ++ "/reactions",
           headers := [], form := selector.make_parameters }

/-- Whether a message is the Direct variant. -/
def Message.is_direct : Message → Bool
  | .Direct .. => true
  | _ => false

/-- Whether a message is the Stream variant. -/
def Message.is_stream : Message → Bool
  | .Stream .. => true
  | _ => false

/-- Whether a message is the Channel variant. -/
def Message.is_channel : Message → Bool
  | .Channel .. => true
  | _ => false

/-- Whether an Except value is the ok outcome. -/
def isOkB : Except ε α → Bool
  | .ok _ => true
  | .error _ => false

/-- Whether a JSON object carries the named field with a string value. -/
def Json.hasStrField (j : Json) (name : String) : Bool :=
  match j.getField name with
  | some (.str _) => true
  | _ => false

/-- Whether the ignored_parameters_unsupported field, when present, is
acceptable to the ResponseError deserializer: absent, null, or a list
of strings. -/
def ignoredFieldOk (j : Json) : Bool :=
  match j.getField "ignored_parameters_unsupported" with
  | none => true
  | some .null => true
  | some v => isOkB (decodeStringList v)

/-- The spec example of an embedded-error body carrying a success id. -/
def exampleErrorBody : Json :=
  .obj [("result", .str "error"), ("code", .str "BAD_REQUEST"),
        ("msg", .str "x"), ("id", .num 42)]

/-- The spec example body without the id field. -/
def noIdErrorBody : Json :=
  .obj [("result", .str "error"), ("code", .str "BAD_REQUEST"), ("msg", .str "x")]

/-- A concrete message used to instantiate the theorems. -/
def exampleMessage : Message := .Stream "hi" "general" "q" "l"

/-- An edit response body carrying an embedded error object. -/
def editErrorBody : Json :=
  .obj [("result", .str "error"), ("code", .str "BAD_REQUEST"),
        ("msg", .str "x"), ("detached_uploads", .arr [])]

/-- An error body listing one ignored parameter. -/
def ignoredErrorBody : Json :=
  .obj [("code", .str "BAD_REQUEST"), ("msg", .str "x"),
        ("ignored_parameters_unsupported", .arr [.str "foo"])]

/-- A body whose code and msg are present while the ignored-parameters
field is a number rather than a list. -/
def illTypedIgnoredBody : Json :=
  .obj [("code", .str "BAD_REQUEST"), ("msg", .str "x"),
        ("ignored_parameters_unsupported", .num 5)]

/-- A concrete client used to instantiate the theorems. -/
def demoClient : Client :=
  { conf := { user_agent := UserAgent.new "libzulip" "0.1.0" "myapp" "1.0",
              email := "user@example.com", api_key := ⟨"secret-key"⟩,
              server_address := "https://example.zulipchat.com",
              messages := ⟨true⟩ },
    api_url := "https://example.zulipchat.com/api/v1/" }

/-- isOkB is unchanged by mapping over the success value. -/
theorem isOkB_map (e : Except ε α) (f : α → β) : isOkB (e.map f) = isOkB e := by
  cases e <;> rfl

/-- A required string field decodes exactly when the object carries the
named field with a string value. -/
theorem decodeReqField_string_isOk (j : Json) (name : String) :
    isOkB (decodeReqField j name decodeString) = j.hasStrField name := by
  unfold decodeReqField Json.hasStrField
  cases j.getField name with
  | none => rfl
  | some v => cases v <;> rfl

/-- The optional ignored-parameters field decodes exactly when it is
absent, null, or a list of strings. -/
theorem decodeOptField_ignored_isOk (j : Json) :
    isOkB (decodeOptField j "ignored_parameters_unsupported" decodeStringList)
      = ignoredFieldOk j := by
  unfold decodeOptField ignoredFieldOk
  cases j.getField "ignored_parameters_unsupported" with
  | none => rfl
  | some v => cases v <;> first | rfl | exact isOkB_map _ _

/-- The flattened error object is detected exactly when code and msg are
present as strings and the ignored-parameters field is acceptable. -/
theorem flattened_error_some_iff (j : Json) :
    (decodeFlattenedError j).isSome
      = (j.hasStrField "code" && j.hasStrField "msg" && ignoredFieldOk j) := by
  rw [← decodeReqField_string_isOk j "code", ← decodeReqField_string_isOk j "msg",
      ← decodeOptField_ignored_isOk j]
  unfold decodeFlattenedError ResponseError.decode
  cases decodeReqField j "code" decodeString <;>
    cases decodeReqField j "msg" decodeString <;>
      cases decodeOptField j "ignored_parameters_unsupported" decodeStringList <;>
        rfl

/-- Claim C1: when the decoded response body of send_message or
delete_message carries an embedded error object, the operation returns
the operation-specific error variant carrying the rendered code and
message of that object, never a success. -/
theorem send_and_delete_fail_on_embedded_error
    (msg : Message) (msg_id : Nat) (b₁ b₂ : Json)
    (r₁ : MessageResponse) (r₂ : DeletedMessageResponse) (e₁ e₂ : ResponseError)
    (h₁ : MessageResponse.decode b₁ = .ok r₁) (he₁ : r₁.error = some e₁)
    (h₂ : DeletedMessageResponse.decode b₂ = .ok r₂) (he₂ : r₂.error = some e₂) :
    send_message msg b₁ = .error (.MessageError (.SendFailed msg.content e₁.render))
    ∧ (delete_message msg_id b₂).1
        = .error (.MessageError (.DeletionFailed msg_id e₂.render)) := by
  unfold send_message delete_message
  rw [h₁, h₂]
  dsimp only
  rw [he₁, he₂]
  exact ⟨rfl, rfl⟩

/-- Claim C1 witness: the example body with result error, code
BAD_REQUEST, msg x and id 42 decodes as a failure carrying the code,
not as a success with id 42. -/
theorem send_and_delete_fail_on_embedded_error_witness :
    send_message exampleMessage exampleErrorBody
      = .error (.MessageError (.SendFailed "hi" "err(BAD_REQUEST): x"))
    ∧ (delete_message 42 exampleErrorBody).1
      = .error (.MessageError (.DeletionFailed 42 "err(BAD_REQUEST): x")) :=
  send_and_delete_fail_on_embedded_error exampleMessage 42 exampleErrorBody exampleErrorBody
    ⟨42, none, some ⟨"BAD_REQUEST", "x", none⟩, none⟩
    ⟨some ⟨"BAD_REQUEST", "x", none⟩⟩
    ⟨"BAD_REQUEST", "x", none⟩ ⟨"BAD_REQUEST", "x", none⟩
    (by rfl) (by rfl) (by rfl) (by rfl)

/-- Claim C2 (code bug): with refreshInterval five and a last refresh at
time zero, get at time one performs no fetch and returns the held
settings; get at time six performs exactly one fetch, but the completed
refresh leaves last_updated at zero instead of writing the refresh
time, so a further get at time seven fetches yet again. -/
theorem cache_refresh_leaves_last_updated_stale :
    (ServerSettingsCache.new 0 5 "s0").get 1 "s1"
      = (ServerSettingsCache.new 0 5 "s0", 0, "s0")
    ∧ (ServerSettingsCache.new 0 5 "s0").get 6 "s1"
      = (⟨5, 0, "s1"⟩, 1, "s1")
    ∧ ((((ServerSettingsCache.new 0 5 "s0").get 6 "s1").1).get 7 "s2").2.1 = 1 :=
  ⟨rfl, rfl, rfl⟩

/-- Claim C3 (code bug): a response body carrying a decodable embedded
error object is returned by edit_message as a success; no embedded
error check is applied and no edit-specific error variant exists. -/
theorem edit_message_skips_embedded_error_check :
    edit_message ⟨1, none, none, none, none, none⟩ editErrorBody = .ok ⟨[]⟩
    ∧ decodeFlattenedError editErrorBody = some ⟨"BAD_REQUEST", "x", none⟩ :=
  ⟨rfl, rfl⟩

/-- Claim C4 counterexample: a concrete dispatched request carries the
Basic authentication header only; no client identity header is
attached, contradicting the claim that every request carries both. -/
theorem dispatched_request_lacks_identity_header :
    (demoClient.delete_message_request 42).headers
      = [.Authorization "user@example.com" "secret-key"]
    ∧ ((demoClient.delete_message_request 42).headers.all fun h => ! h.is_user_agent)
      = true :=
  ⟨rfl, rfl⟩

/-- Claim C4 (amended): every dispatched request carries exactly the
Basic authentication header built from the configured email and API
key; the identity string is built once from the caller product name and
version plus the library name and version, but is never attached. -/
theorem requests_carry_basic_auth_without_identity
    (c : Client) (msg : Message) (msg_id : Nat) (selector : EmojiSelector)
    (pkg_name pkg_version client_name version : String) :
    (c.send_message_request msg).headers = [.Authorization c.conf.email c.conf.api_key.get]
    ∧ (c.delete_message_request msg_id).headers
        = [.Authorization c.conf.email c.conf.api_key.get]
    ∧ (c.add_emoji_reaction_request msg_id selector).headers
        = [.Authorization c.conf.email c.conf.api_key.get]
    ∧ (UserAgent.new pkg_name pkg_version client_name version).s
        = client_name ++ "/" ++ version ++ ", " ++ pkg_name ++ "/" ++ pkg_version ++ " (Rust)" :=
  ⟨rfl, rfl, rfl, rfl⟩

/-- Claim C5 (code bug): for a path whose file is absent while the
existence probe succeeds, upload_file proceeds to the network upload
instead of returning FileNotFound; FileNotFound is returned exactly
when the probe itself errors, and a path without a derivable file name
fails FileNameNotFound before the existence check. -/
theorem upload_missing_file_reaches_network :
    upload_file_local_stage ⟨"/tmp/missing.txt", some "missing.txt", false, false⟩
      = .dispatched "missing.txt"
    ∧ upload_file_local_stage ⟨"/tmp/locked.txt", some "locked.txt", true, true⟩
      = .failedBeforeNetwork (.FileError (.FileNotFound "/tmp/locked.txt"))
    ∧ upload_file_local_stage ⟨"..", none, true, false⟩
      = .failedBeforeNetwork (.FileError (.FileNameNotFound "..")) :=
  ⟨rfl, rfl, rfl⟩

/-- Claim C6: the wire encoding of a message contains exactly the
fields of the active variant: type, content, queue_id and local_id
always; to for Direct and Channel only; topic for Stream and Channel
only; no other key ever appears and absent fields are absent rather
than null. -/
theorem message_parameters_exact_fields (m : Message) :
    m.make_parameters.lookup "type" = some m.typ
    ∧ m.make_parameters.lookup "content" = some m.content
    ∧ m.make_parameters.lookup "queue_id" = some m.queue_id
    ∧ m.make_parameters.lookup "local_id" = some m.local_id
    ∧ m.make_parameters.lookup "to" = m.to'
    ∧ m.make_parameters.lookup "topic" = m.topic
    ∧ m.to'.isSome = (m.is_direct || m.is_channel)
    ∧ m.topic.isSome = (m.is_stream || m.is_channel)
    ∧ (m.make_parameters.all fun p =>
        ["local_id", "queue_id", "content", "type", "to", "topic"].contains p.1) = true := by
  cases m with
  | Direct to' content queue_id local_id =>
    cases to' <;> exact ⟨rfl, rfl, rfl, rfl, rfl, rfl, rfl, rfl, rfl⟩
  | Stream content topic queue_id local_id =>
    exact ⟨rfl, rfl, rfl, rfl, rfl, rfl, rfl, rfl, rfl⟩
  | Channel to' content topic queue_id local_id =>
    cases to' <;> exact ⟨rfl, rfl, rfl, rfl, rfl, rfl, rfl, rfl, rfl⟩

/-- Claim C7: the encoded emoji selector maps emoji_name to the
percent-encoding of the name and contains emoji_code and reaction_type
exactly when the optional fields are set; the example with name
grinning face and both options absent encodes as grinning%20face with
the other keys omitted entirely. -/
theorem emoji_selector_parameter_encoding (sel : EmojiSelector) :
    sel.make_parameters.lookup "emoji_name" = some (urlencode sel.emoji_name)
    ∧ sel.make_parameters.lookup "emoji_code" = sel.emoji_code
    ∧ sel.make_parameters.lookup "reaction_type" = sel.reaction_type.map ReactionType.render
    ∧ (sel.make_parameters.all fun p =>
        ["emoji_name", "emoji_code", "reaction_type"].contains p.1) = true
    ∧ urlencode "grinning face" = "grinning%20face"
    ∧ EmojiSelector.make_parameters ⟨"grinning face", none, none⟩
        = [("emoji_name", "grinning%20face")] := by
  obtain ⟨name, code, rt⟩ := sel
  cases code <;> cases rt <;> exact ⟨rfl, rfl, rfl, rfl, rfl, rfl⟩

/-- Claim C8 (code bug): on a failed outcome listing ignored
parameters, add_emoji_reaction emits no warning event, while
remove_emoji_reaction and delete_message emit one on the same body. -/
theorem add_emoji_reaction_drops_ignored_warning :
    add_emoji_reaction 1 ⟨"smile", none, none⟩ ignoredErrorBody
      = (.error (.MessageError (.AddEmojiFailed 1 "smile" "err(BAD_REQUEST): x")), [])
    ∧ remove_emoji_reaction 1 ⟨"smile", none, none⟩ ignoredErrorBody
      = (.error (.MessageError (.RemoveEmojiFailed 1 "smile" "err(BAD_REQUEST): x")), [["foo"]])
    ∧ delete_message 1 ignoredErrorBody
      = (.error (.MessageError (.DeletionFailed 1 "err(BAD_REQUEST): x")), [["foo"]]) :=
  ⟨rfl, rfl, rfl⟩

/-- Claim C9 (amended): the embedded error is detected exactly when
code and msg are present as strings and any present ignored-parameters
field is null or a list of strings; a body with code alone, msg alone,
or only ignored_parameters_unsupported decodes to none and the reply is
treated as a success. -/
theorem error_detection_characterization :
    (∀ j : Json, (decodeFlattenedError j).isSome
        = (j.hasStrField "code" && j.hasStrField "msg" && ignoredFieldOk j))
    ∧ decodeFlattenedError (.obj [("code", .str "BAD_REQUEST")]) = none
    ∧ decodeFlattenedError (.obj [("msg", .str "x")]) = none
    ∧ decodeFlattenedError (.obj [("ignored_parameters_unsupported", .arr [.str "p"])]) = none
    ∧ delete_message 7 (.obj [("ignored_parameters_unsupported", .arr [.str "p"])])
        = (.ok (), []) :=
  ⟨flattened_error_some_iff, rfl, rfl, rfl, rfl⟩

/-- Claim C9 counterexample: a body whose code and msg string fields
are both present while ignored_parameters_unsupported is a number
decodes to none and is treated as a success, refuting detection if and
only if code and msg are present. -/
theorem error_detection_iff_counterexample :
    illTypedIgnoredBody.hasStrField "code" = true
    ∧ illTypedIgnoredBody.hasStrField "msg" = true
    ∧ decodeFlattenedError illTypedIgnoredBody = none
    ∧ (delete_message 7 illTypedIgnoredBody).1 = .ok () :=
  ⟨rfl, rfl, rfl, rfl⟩

/-- Claim C10: a response body without an id field makes send_message
return the decode failure of the response, never SendFailed, whatever
else the body carries. -/
theorem send_message_requires_id_field (msg : Message) (b : Json)
    (h : b.getField "id" = none) :
    send_message msg b
      = .error (.ReqwestError "error decoding response body: missing field id") := by
  unfold send_message MessageResponse.decode decodeReqField
  rw [h]
  rfl

/-- Claim C10 witness: the body with a well-formed embedded error
object and no id decodes as the missing-field failure. -/
theorem send_message_requires_id_field_witness :
    send_message exampleMessage noIdErrorBody
      = .error (.ReqwestError "error decoding response body: missing field id") :=
  send_message_requires_id_field exampleMessage noIdErrorBody (by rfl)

end Zulip
